import Mathlib

/-!
# Service discovery: a shallow embedding of the Go package `discovery`

Sources embedded here:

* `discovery.go`: `NewDiscoveryService`, `FindUrl`, `balanced`;
* `locatorDiscoveryProvider.go`: the provider reading `SERVICELOCATOR_<name>`;
* `kubernetesDiscoveryProvider.go`: the provider asking the cluster API.

Conventions.

* A Go `string` is a Lean `String`; the library functions used by the package
  (`strings.HasSuffix`, `strings.TrimSuffix`, `strings.Split`) are written out on
  the character list of the string.
* A Go `error` is identified by its message; `nil` is `none`.
* A Go function returning `([]string, error)` returns a pair here; a run-time
  panic (failed type assertion, index out of range) is the separate outcome
  `Outcome.panicked`.
* The process environment, the namespace file and the cluster API are the fields
  of `World`; every call to one of them is recorded in a list of `Call`s that the
  embedded functions return next to their result.
* `time.Duration` and Unix-nanosecond instants are integers; `World.now` is the
  reading of the clock during one lookup.
-/

namespace Discovery

/-! ## Go values -/

/-- Error values, identified by their message (`nil` is `none` at the use sites). -/
abbrev GoError := String

/-- How a Go call ends: it returns a value, or the goroutine panics. -/
inductive Outcome (α : Type) where
  | returned (v : α)
  | panicked (msg : String)
  deriving DecidableEq

/-- Result of `strings.HasSuffix`:
`len(s) >= len(suffix) && s[len(s)-len(suffix):] == suffix`. -/
def HasSuffix (s suffix : String) : Bool :=
  decide (suffix.data.length ≤ s.data.length) &&
    (s.data.drop (s.data.length - suffix.data.length) == suffix.data)

/-- Result of `strings.TrimSuffix`:
`if HasSuffix(s, suffix) { return s[:len(s)-len(suffix)] }; return s`. -/
def TrimSuffix (s suffix : String) : String :=
  if HasSuffix s suffix then String.mk (s.data.take (s.data.length - suffix.data.length))
  else s

/-- Scanning loop of `strings.Split` for a non-empty separator: the leftmost
occurrence of `sep` closes the current piece, and the scan resumes right after
it (`skip` counts the characters of the occurrence still to pass over). -/
def splitAux (sep : List Char) : Nat → List Char → List Char → List (List Char)
  | _, cur, [] => [cur.reverse]
  | skip + 1, cur, _ :: rest => splitAux sep skip cur rest
  | 0, cur, c :: rest =>
    if sep.isPrefixOf (c :: rest) then cur.reverse :: splitAux sep (sep.length - 1) [] rest
    else splitAux sep 0 (c :: cur) rest

/-- Result of `strings.Split(s, sep)`: with an empty separator the string is
exploded into its characters, otherwise it is cut at every occurrence of `sep`. -/
def Split (s sep : String) : List String :=
  if sep.data = [] then s.data.map (fun c => String.mk [c])
  else (splitAux sep.data 0 [] s.data).map String.mk

/-! ## The cache collaborator -/

/-- Modelled from the spec: one entry of the cache collaborator
(`github.com/patrickmn/go-cache`, not part of the package sources): the stored
value and the instant it expires at, `0` when it never does. -/
structure Item (α : Type) where
  Object : α
  Expiration : Int
  deriving DecidableEq

/-- Modelled from the spec: the cache collaborator, a key-value store with
per-entry expiration. `items` holds at most one entry per key. -/
structure Cache (α : Type) where
  defaultExpiration : Int
  items : List (String × Item α)
  deriving DecidableEq

/-- Modelled from the spec: `cache.New(defaultExpiration, cleanupInterval)`, an
empty store; a default expiration of `0` stands for "never". The cleanup
interval only drives the sweep of entries that `Get` no longer returns. -/
def Cache.New {α : Type} (defaultExpiration _cleanupInterval : Int) : Cache α :=
  { defaultExpiration := if defaultExpiration = 0 then -1 else defaultExpiration
    items := [] }

/-- Modelled from the spec: `Set(key, value, ttlOverride)` at instant `now`; the
override `0` selects the default expiration of the cache, and a duration that
is not positive makes the entry permanent. -/
def Cache.Set {α : Type} (c : Cache α) (now : Int) (k : String) (x : α) (d : Int) : Cache α :=
  let d := if d = 0 then c.defaultExpiration else d
  let e := if d > 0 then now + d else 0
  { c with items := (k, { Object := x, Expiration := e }) :: c.items.filter (fun p => p.1 != k) }

/-- Modelled from the spec: `Get(key) -> (value, found)` at instant `now`; a
missing or expired entry gives `(nil, false)`. -/
def Cache.Get {α : Type} (c : Cache α) (now : Int) (k : String) : Option α × Bool :=
  match c.items.lookup k with
  | none => (none, false)
  | some item =>
    if item.Expiration > 0 ∧ now > item.Expiration then (none, false)
    else (some item.Object, true)

/-! ## The outside world -/

/-- Condition of a pod, as listed by the cluster: type and status. -/
structure PodCondition where
  Type_ : String
  Status : String
  deriving DecidableEq

/-- Pod result of the cluster API: name, phase and conditions. -/
structure Pod where
  Name : String
  Phase : String
  Conditions : List PodCondition
  deriving DecidableEq

/-- Declared port of a service: name and number. -/
structure ServicePort where
  Name : String
  Port : Int
  deriving DecidableEq

/-- Service result of the cluster API: declared ports and cluster IP. -/
structure Service where
  Ports : List ServicePort
  ClusterIP : String
  deriving DecidableEq

/-- One call to an external collaborator. -/
inductive Call where
  | Getenv (name : String)
  | ReadFile (path : String)
  | InClusterConfig
  | NewForConfig
  | ListPods (ns selector : String)
  | ListServices (ns selector : String)
  deriving DecidableEq

/-- State of the collaborators during one lookup: the clock, the process
environment, the file system, and the answers of the cluster API. -/
structure World where
  now : Int
  environ : String → Option String
  readFile : String → Except GoError String
  inClusterConfig : Except GoError Unit
  newForConfig : Except GoError Unit
  listPods : String → String → Except GoError (List Pod)
  listServices : String → String → Except GoError (List Service)

/-- Result of `os.Getenv`: the value of the variable, `""` when it is unset. -/
def World.Getenv (w : World) (name : String) : String :=
  (w.environ name).getD ""

/-- Result type of `discoveryServiceUrl` over a provider state `σ`: how the call
ended, the provider state it left, and the collaborator calls it made, in order. -/
abbrev Lookup (σ : Type) := Outcome (List String × Option GoError) × σ × List Call

/-! ## kubernetesDiscoveryProvider.go -/

/-- Constant `currentNameSpaceCacheKey`. -/
def currentNameSpaceCacheKey : String := "CURRENT_NAME_SPACE_CACHE"

/-- Constant `serviceUrlCachePrefix`. -/
def serviceUrlCachePrefix : String := "SERVICE_URL_CACHE_"

/-- Constant `defaultLabelName`. -/
def defaultLabelName : String := "app"

/-- Path of the service-account namespace file read by the provider. -/
def namespaceFilePath : String := "/var/run/secrets/kubernetes.io/serviceaccount/namespace"

/-- Constant `corev1.PodRunning`. -/
def PodRunning : String := "Running"

/-- Constant `corev1.PodReady`. -/
def PodReady : String := "Ready"

/-- Constant `corev1.ConditionTrue`. -/
def ConditionTrue : String := "True"

/-- Translation of `getServiceUrlCacheKey`: `fmt.Sprintf("%v%v", cachePrefix, serviceName)`. -/
def getServiceUrlCacheKey (cachePrefix serviceName : String) : String :=
  cachePrefix ++ serviceName

/-- State of the Kubernetes provider: the two caches (`nil` is `none`) and the
label name. -/
structure kubernetesDiscoveryProviderImpl where
  namespaceCache : Option (Cache String)
  urlCache : Option (Cache String)
  labelName : String
  deriving DecidableEq

/-- Translation of `newKubernetesDiscoveryProvider`: a cache is created only for
a positive duration, and an empty label name leaves the default one. -/
def newKubernetesDiscoveryProvider (urlCacheTime namespaceCacheTime : Int)
    (labelName : String) : kubernetesDiscoveryProviderImpl :=
  { namespaceCache :=
      if namespaceCacheTime > 0 then some (Cache.New namespaceCacheTime namespaceCacheTime)
      else none
    urlCache := if urlCacheTime > 0 then some (Cache.New urlCacheTime urlCacheTime) else none
    labelName := if labelName ≠ "" then labelName else defaultLabelName }

/-- Translation of `getNamespaceCache`: `""` without a cache or without a live
entry, otherwise the cached namespace. -/
def kubernetesDiscoveryProviderImpl.getNamespaceCache (d : kubernetesDiscoveryProviderImpl)
    (now : Int) : String :=
  match d.namespaceCache with
  | none => ""
  | some c =>
    match c.Get now currentNameSpaceCacheKey with
    | (some cachedCurrentNamespace, true) => cachedCurrentNamespace
    | _ => ""

/-- Translation of `setNamespaceCache`: nothing without a cache, otherwise
`Set(currentNameSpaceCacheKey, namespace, 0)`. -/
def kubernetesDiscoveryProviderImpl.setNamespaceCache (d : kubernetesDiscoveryProviderImpl)
    (now : Int) (ns : String) : kubernetesDiscoveryProviderImpl :=
  match d.namespaceCache with
  | none => d
  | some c => { d with namespaceCache := some (c.Set now currentNameSpaceCacheKey ns 0) }

/-- Translation of the Kubernetes `getUrlCache`: `""` without a cache or without
a live entry under the service key, otherwise the cached URL. -/
def kubernetesDiscoveryProviderImpl.getUrlCache (d : kubernetesDiscoveryProviderImpl)
    (now : Int) (serviceName : String) : String :=
  match d.urlCache with
  | none => ""
  | some c =>
    match c.Get now (getServiceUrlCacheKey serviceUrlCachePrefix serviceName) with
    | (some cachedServiceUrl, true) => cachedServiceUrl
    | _ => ""

/-- Translation of the Kubernetes `setUrlCache`: nothing without a cache,
otherwise `Set(key, serviceUrl, 0)` under the service key. -/
def kubernetesDiscoveryProviderImpl.setUrlCache (d : kubernetesDiscoveryProviderImpl)
    (now : Int) (serviceName serviceUrl : String) : kubernetesDiscoveryProviderImpl :=
  match d.urlCache with
  | none => d
  | some c =>
    { d with
      urlCache :=
        some (c.Set now (getServiceUrlCacheKey serviceUrlCachePrefix serviceName) serviceUrl 0) }

/-- The loop of `discoveryServiceUrl` over `pods.Items`: a pod that is not in the
Running phase is skipped; otherwise its name is appended once for every
condition of type Ready with status True. -/
def collectLabeledPods (pods : List Pod) : List String :=
  pods.foldl
    (fun acc pod =>
      if pod.Phase ≠ PodRunning then acc
      else
        pod.Conditions.foldl
          (fun acc condition =>
            if condition.Type_ = PodReady ∧ condition.Status = ConditionTrue then
              acc ++ [pod.Name]
            else acc)
          acc)
    []

/-- Translation of the Kubernetes `discoveryServiceUrl`, statement by statement:
url cache, namespace (cache, then file), client construction, pod list, ready
pods, service list, URL of the first service from its first port. -/
def kubernetesDiscoveryProviderImpl.discoveryServiceUrl (d : kubernetesDiscoveryProviderImpl)
    (w : World) (serviceName : String) : Lookup kubernetesDiscoveryProviderImpl :=
  let cachedServiceUrl := d.getUrlCache w.now serviceName
  if cachedServiceUrl ≠ "" then (.returned ([cachedServiceUrl], none), d, [])
  else
    let cachedCurrentNamespace := d.getNamespaceCache w.now
    let namespaceStep : Except GoError (String × kubernetesDiscoveryProviderImpl) × List Call :=
      if cachedCurrentNamespace ≠ "" then (.ok (cachedCurrentNamespace, d), [])
      else
        match w.readFile namespaceFilePath with
        | .error err => (.error err, [Call.ReadFile namespaceFilePath])
        | .ok currentNamespace =>
          (.ok (currentNamespace, d.setNamespaceCache w.now currentNamespace),
            [Call.ReadFile namespaceFilePath])
    match namespaceStep with
    | (.error err, t) => (.returned ([], some err), d, t)
    | (.ok (currentNamespace, d1), t) =>
      match w.inClusterConfig with
      | .error err => (.returned ([], some err), d1, t ++ [Call.InClusterConfig])
      | .ok _ =>
        match w.newForConfig with
        | .error err =>
          (.returned ([], some err), d1, t ++ [Call.InClusterConfig, Call.NewForConfig])
        | .ok _ =>
          let labelSelector := d1.labelName ++ "=" ++ serviceName
          let t1 := t ++ [Call.InClusterConfig, Call.NewForConfig,
            Call.ListPods currentNamespace labelSelector]
          match w.listPods currentNamespace labelSelector with
          | .error err => (.returned ([], some err), d1, t1)
          | .ok pods =>
            -- the variable `err` holds `nil` from here on
            let err : Option GoError := none
            let existLabeledPods := collectLabeledPods pods
            if existLabeledPods.length = 0 then (.returned ([], err), d1, t1)
            else
              let t2 := t1 ++ [Call.ListServices currentNamespace labelSelector]
              match w.listServices currentNamespace labelSelector with
              | .error err => (.returned ([], some err), d1, t2)
              | .ok services =>
                match services with
                | [] =>
                  (.returned ([], some "service not found in Kubernetes Discovery"), d1, t2)
                | v :: _ =>
                  match v.Ports with
                  | [] =>
                    (.panicked "runtime error: index out of range [0] with length 0", d1, t2)
                  | port0 :: _ =>
                    let serviceUrl :=
                      port0.Name ++ "://" ++ v.ClusterIP ++ ":" ++ toString port0.Port
                    (.returned ([serviceUrl], none),
                      d1.setUrlCache w.now serviceName serviceUrl, t2)

/-! ## locatorDiscoveryProvider.go -/

/-- Constant `envServiceUrlCachePrefix`. -/
def envServiceUrlCachePrefix : String := "ENV_SERVICE_URL_CACHE_"

/-- State of the Locator provider: its url-list cache (`nil` is `none`). -/
structure locatorDiscoveryProviderImpl where
  urlCache : Option (Cache (List String))
  deriving DecidableEq

/-- Translation of `newLocatorDiscoveryProvider`: the cache is created only for a
positive duration. -/
def newLocatorDiscoveryProvider (urlCacheTime : Int) : locatorDiscoveryProviderImpl :=
  { urlCache := if urlCacheTime > 0 then some (Cache.New urlCacheTime urlCacheTime) else none }

/-- Translation of the Locator `getUrlCache`: `[]` without a cache; otherwise the
value returned by `Get` is asserted to be a `[]string` whatever the `found` flag
says, and the assertion panics on the `nil` of a missing entry. -/
def locatorDiscoveryProviderImpl.getUrlCache (d : locatorDiscoveryProviderImpl)
    (now : Int) (serviceName : String) : Outcome (List String) :=
  match d.urlCache with
  | none => .returned []
  | some c =>
    match (c.Get now (getServiceUrlCacheKey envServiceUrlCachePrefix serviceName)).1 with
    | some cachedServiceUrl => .returned cachedServiceUrl
    | none => .panicked "interface conversion: interface \x7b\x7d is nil, not []string"

/-- Translation of the Locator `setUrlCache`: nothing without a cache, otherwise
`Set(key, serviceUrls, 0)` under the service key. -/
def locatorDiscoveryProviderImpl.setUrlCache (d : locatorDiscoveryProviderImpl)
    (now : Int) (serviceName : String) (serviceUrls : List String) :
    locatorDiscoveryProviderImpl :=
  match d.urlCache with
  | none => d
  | some c =>
    { urlCache :=
        some (c.Set now (getServiceUrlCacheKey envServiceUrlCachePrefix serviceName)
          serviceUrls 0) }

/-- Translation of `getServiceLocator`: a non-empty cached list is returned as it
is; otherwise the variable `SERVICELOCATOR_<name>` is split on `","`, the
length-zero guard is applied, and the list is cached and returned. -/
def locatorDiscoveryProviderImpl.getServiceLocator (d : locatorDiscoveryProviderImpl)
    (w : World) (serviceName : String) : Lookup locatorDiscoveryProviderImpl :=
  match d.getUrlCache w.now serviceName with
  | .panicked msg => (.panicked msg, d, [])
  | .returned cachedServiceUrls =>
    if cachedServiceUrls.length > 0 then (.returned (cachedServiceUrls, none), d, [])
    else
      let serviceLocatorStr := w.Getenv ("SERVICELOCATOR_" ++ serviceName)
      let result := Split serviceLocatorStr ","
      if result.length = 0 then
        (.returned ([], some "service not found in Locator Discovery"), d,
          [Call.Getenv ("SERVICELOCATOR_" ++ serviceName)])
      else
        (.returned (result, none), d.setUrlCache w.now serviceName result,
          [Call.Getenv ("SERVICELOCATOR_" ++ serviceName)])

/-- Translation of the Locator `discoveryServiceUrl`: it is `getServiceLocator`. -/
def locatorDiscoveryProviderImpl.discoveryServiceUrl (d : locatorDiscoveryProviderImpl)
    (w : World) (serviceName : String) : Lookup locatorDiscoveryProviderImpl :=
  d.getServiceLocator w serviceName

/-! ## discovery.go -/

/-- Constant `KubernetesProviderName`. -/
def KubernetesProviderName : String := "kubernetes"

/-- Constant `LocatorProviderName`. -/
def LocatorProviderName : String := "locator"

/-- The interface `discoveryProvider`: any value with a `discoveryServiceUrl`
method. The value carries its own private state, which a lookup may change. -/
structure discoveryProvider where
  State : Type
  state : State
  discoveryServiceUrl : State → World → String → Lookup State

/-- What one provider answers to a lookup in its current state. -/
def discoveryProvider.answer (p : discoveryProvider) (w : World) (serviceName : String) :
    Outcome (List String × Option GoError) :=
  (p.discoveryServiceUrl p.state w serviceName).1

/-- The provider after a lookup: same method, the state the lookup left. -/
def discoveryProvider.after (p : discoveryProvider) (w : World) (serviceName : String) :
    discoveryProvider :=
  { p with state := (p.discoveryServiceUrl p.state w serviceName).2.1 }

/-- The collaborator calls one provider makes during a lookup. -/
def discoveryProvider.calls (p : discoveryProvider) (w : World) (serviceName : String) :
    List Call :=
  (p.discoveryServiceUrl p.state w serviceName).2.2

/-- The Kubernetes provider as a `discoveryProvider`. -/
def kubernetesDiscoveryProviderImpl.toProvider (d : kubernetesDiscoveryProviderImpl) :
    discoveryProvider :=
  { State := kubernetesDiscoveryProviderImpl
    state := d
    discoveryServiceUrl := kubernetesDiscoveryProviderImpl.discoveryServiceUrl }

/-- The Locator provider as a `discoveryProvider`. -/
def locatorDiscoveryProviderImpl.toProvider (d : locatorDiscoveryProviderImpl) :
    discoveryProvider :=
  { State := locatorDiscoveryProviderImpl
    state := d
    discoveryServiceUrl := locatorDiscoveryProviderImpl.discoveryServiceUrl }

/-- The struct `DiscoveryServiceImpl`: the provider registry, listed in the order
in which the `range` statement of `FindUrl` visits it. -/
structure DiscoveryServiceImpl where
  providers : List (String × discoveryProvider)

/-- The struct `DiscoveryServiceConfig`. -/
structure DiscoveryServiceConfig where
  LocatorProviderUrlCacheTime : Int
  KubernetesProviderUrlCacheTime : Int
  KubernetesProviderNamespaceCacheTime : Int
  KubernetesProviderLabelName : String
  deriving DecidableEq

/-- Translation of `NewDiscoveryService`: the registry with the Kubernetes
provider and the Locator provider built from the configuration. -/
def NewDiscoveryService (config : DiscoveryServiceConfig) : DiscoveryServiceImpl :=
  let kubernetes := newKubernetesDiscoveryProvider config.KubernetesProviderUrlCacheTime
    config.KubernetesProviderNamespaceCacheTime config.KubernetesProviderLabelName
  let locator := newLocatorDiscoveryProvider config.LocatorProviderUrlCacheTime
  { providers :=
      [(KubernetesProviderName, kubernetes.toProvider), (LocatorProviderName, locator.toProvider)] }

/-! ## discovery.go: the selection policy -/

/-- Translation of `balanced`: fail on an empty candidate list, otherwise take
`urls[0]` and trim the suffix `"/"`. -/
def balanced (urls : List String) : String × Option GoError :=
  match urls with
  | [] => ("", some "not found in Discovery")
  | first :: _ => (TrimSuffix first "/", none)

/-- The loop of `FindUrl`: each provider is asked in turn; an error skips the
provider (`continue`), a success appends its URLs to `urls`; a panic ends the
loop. Returns the final `urls`, the providers after their lookups, and the
collaborator calls made. -/
def findLoop (w : World) (serviceName : String) :
    List (String × discoveryProvider) → List String →
      Outcome (List String) × List (String × discoveryProvider) × List Call
  | [], urls => (.returned urls, [], [])
  | (name, p) :: ps, urls =>
    match p.answer w serviceName with
    | .panicked msg =>
      (.panicked msg, (name, p.after w serviceName) :: ps, p.calls w serviceName)
    | .returned (fundedUrls, err) =>
      let urls1 := if err ≠ none then urls else urls ++ fundedUrls
      match findLoop w serviceName ps urls1 with
      | (r, ps1, t) => (r, (name, p.after w serviceName) :: ps1, p.calls w serviceName ++ t)

/-- Translation of `FindUrl`: run the loop from the empty list, then `balanced`. -/
def DiscoveryServiceImpl.FindUrl (ds : DiscoveryServiceImpl) (w : World)
    (serviceName : String) :
    Outcome (String × Option GoError) × DiscoveryServiceImpl × List Call :=
  match findLoop w serviceName ds.providers [] with
  | (.panicked msg, ps, t) => (.panicked msg, { providers := ps }, t)
  | (.returned urls, ps, t) => (.returned (balanced urls), { providers := ps }, t)

/-! ## Reading the registry: the candidates of a lookup -/

/-- The URLs a provider contributes: those of an answer without error, none for
an answer with an error (or for a panic). -/
def succeededUrls : Outcome (List String × Option GoError) → List String
  | .returned (urls, none) => urls
  | _ => []

/-- The concatenation, in iteration order, of the URL lists of the providers
that answered without error. -/
def candidates (ds : DiscoveryServiceImpl) (w : World) (serviceName : String) : List String :=
  (ds.providers.map (fun p => succeededUrls (p.2.answer w serviceName))).flatten

/-! ## Concrete inputs -/

/-- A provider that always fails. -/
def failingProvider : discoveryProvider :=
  { State := Unit
    state := ()
    discoveryServiceUrl := fun st _ _ => (.returned ([], some "provider A is down"), st, []) }

/-- A provider that always answers the one URL `http://x/`. -/
def fixedProvider : discoveryProvider :=
  { State := Unit
    state := ()
    discoveryServiceUrl := fun st _ _ => (.returned (["http://x/"], none), st, []) }

/-- A process outside any cluster and without locator variables: the namespace
file cannot be read and no environment variable is set. -/
def bareWorld : World :=
  { now := 1000
    environ := fun _ => none
    readFile := fun _ => .error "open namespace: no such file or directory"
    inClusterConfig := .error "unable to load in-cluster configuration"
    newForConfig := .ok ()
    listPods := fun _ _ => .ok []
    listServices := fun _ _ => .ok [] }

/-- A process with `SERVICELOCATOR_FOO=a,b,c` and no other variable. -/
def locatorWorld : World :=
  { bareWorld with
    environ := fun name => if name = "SERVICELOCATOR_FOO" then some "a,b,c" else none }

/-- A pod in the Running phase whose Ready condition is True. -/
def readyPod : Pod :=
  { Name := "foo-1", Phase := "Running", Conditions := [{ Type_ := "Ready", Status := "True" }] }

/-- A pod that is still Pending. -/
def pendingPod : Pod :=
  { Name := "foo-2", Phase := "Pending", Conditions := [{ Type_ := "Ready", Status := "False" }] }

/-- A process inside a cluster, at instant `now`, in namespace `default`, where
the selector matches the pods `pods` and the services `services`. -/
def clusterWorld (now : Int) (pods : List Pod) (services : List Service) : World :=
  { now := now
    environ := fun _ => none
    readFile := fun _ => .ok "default"
    inClusterConfig := .ok ()
    newForConfig := .ok ()
    listPods := fun _ _ => .ok pods
    listServices := fun _ _ => .ok services }

/-- A service with one declared port. -/
def webService : Service :=
  { Ports := [{ Name := "http", Port := 8080 }], ClusterIP := "10.0.0.1" }

/-- A service that declares no port. -/
def portlessService : Service :=
  { Ports := [], ClusterIP := "None" }

/-- The Kubernetes provider with a url cache of 60 time units, after it resolved
`foo` live at instant 1000 against one ready pod and `webService`. -/
def providerAfterFoo : kubernetesDiscoveryProviderImpl :=
  ((newKubernetesDiscoveryProvider 60 0 "").discoveryServiceUrl
    (clusterWorld 1000 [readyPod] [webService]) "foo").2.1

/-! ## Lemmas on the string functions -/

theorem HasSuffix_iff (s t : String) : HasSuffix s t = true ↔ t.data <:+ s.data := by
  unfold HasSuffix
  simp only [Bool.and_eq_true, decide_eq_true_eq, beq_iff_eq]
  constructor
  · rintro ⟨_, h⟩
    exact List.suffix_iff_eq_drop.mpr h.symm
  · intro h
    exact ⟨h.length_le, (List.suffix_iff_eq_drop.mp h).symm⟩

theorem HasSuffix_append (v t : String) : HasSuffix (v ++ t) t = true := by
  rw [HasSuffix_iff, String.data_append]
  exact List.suffix_append _ _

theorem TrimSuffix_append (v t : String) : TrimSuffix (v ++ t) t = v := by
  unfold TrimSuffix
  rw [if_pos (HasSuffix_append v t)]
  apply String.ext
  simp [String.data_append]

theorem HasSuffix_false_of_ne (s t : String) (h : ∀ v : String, s ≠ v ++ t) :
    HasSuffix s t = false := by
  cases hs : HasSuffix s t with
  | false => rfl
  | true =>
    exfalso
    obtain ⟨l, hl⟩ := (HasSuffix_iff s t).mp hs
    exact h (String.mk l) (String.ext (by simp [String.data_append, hl]))

theorem TrimSuffix_of_ne (s t : String) (h : ∀ v : String, s ≠ v ++ t) :
    TrimSuffix s t = s := by
  unfold TrimSuffix
  simp [HasSuffix_false_of_ne s t h]

theorem splitAux_ne_nil (sep : List Char) (l : List Char) :
    ∀ (skip : Nat) (cur : List Char), splitAux sep skip cur l ≠ [] := by
  induction l with
  | nil => intro skip cur; simp [splitAux]
  | cons c rest ih =>
    intro skip cur
    cases skip with
    | succ k => simpa [splitAux] using ih k cur
    | zero =>
      simp only [splitAux]
      split
      · simp
      · exact ih 0 (c :: cur)

theorem Split_comma_ne_nil (s : String) : Split s "," ≠ [] := by
  have h : (",".data = []) = False := by decide
  simp only [Split, h, if_false, ne_eq, List.map_eq_nil_iff]
  exact splitAux_ne_nil _ _ _ _

theorem HasSuffix_TrimSuffix_slash (u : String) :
    HasSuffix (TrimSuffix u "/") "/" = HasSuffix u "//" := by
  have h1 : ("/" : String).data = [Char.ofNat 47] := by decide
  have h2 : ("//" : String).data = [Char.ofNat 47, Char.ofNat 47] := by
    decide
  rw [Bool.eq_iff_iff, HasSuffix_iff, HasSuffix_iff]
  unfold TrimSuffix
  by_cases hs : HasSuffix u "/" = true
  · rw [if_pos hs]
    obtain ⟨m, hm⟩ := (HasSuffix_iff _ _).mp hs
    have hdata : (String.mk (List.take (u.data.length - ("/" : String).data.length) u.data)).data
        = m := by
      simp [← hm]
    rw [hdata, ← hm, h1, h2]
    constructor
    · rintro ⟨a, ha⟩
      exact ⟨a, by simp [← ha]⟩
    · rintro ⟨a, ha⟩
      refine ⟨a, ?_⟩
      have h3 : (a ++ [Char.ofNat 47]) ++ [Char.ofNat 47]
          = m ++ [Char.ofNat 47] := by simpa using ha
      exact List.append_cancel_right h3
  · rw [if_neg hs]
    constructor
    · intro h
      exact absurd ((HasSuffix_iff _ _).mpr h) hs
    · rintro ⟨a, ha⟩
      exfalso
      apply hs
      rw [HasSuffix_iff, h1]
      exact ⟨a ++ [Char.ofNat 47], by rw [← ha, h2]; simp⟩

/-! ## The selection policy -/

/-- C1: `balanced` fails exactly on the empty candidate list, with the error
"not found in Discovery"; on a non-empty list it returns, without error, the
first element without its suffix "/" when it has one and unchanged when it has
none, whatever the later elements are. -/
theorem balanced_first_trimmed :
    (∀ urls : List String, (balanced urls).2 ≠ none ↔ urls = []) ∧
    balanced [] = ("", some "not found in Discovery") ∧
    (∀ (v : String) (rest : List String), balanced ((v ++ "/") :: rest) = (v, none)) ∧
    (∀ (u : String) (rest : List String),
      (∀ v : String, u ≠ v ++ "/") → balanced (u :: rest) = (u, none)) ∧
    (∀ (u : String) (rest rest2 : List String), balanced (u :: rest) = balanced (u :: rest2)) := by
  refine ⟨?_, rfl, ?_, ?_, ?_⟩
  · intro urls
    cases urls <;> simp [balanced]
  · intro v rest
    simp [balanced, TrimSuffix_append]
  · intro u rest h
    simp [balanced, TrimSuffix_of_ne u "/" h]
  · intro u rest rest2
    rfl

/-- C1 at concrete inputs: a first element with the suffix, and one without. -/
theorem balanced_first_trimmed_witness :
    balanced (("http://x" ++ "/") :: ["http://y/"]) = ("http://x", none) ∧
    balanced ["http://x", "http://y/"] = ("http://x", none) :=
  ⟨balanced_first_trimmed.2.2.1 "http://x" ["http://y/"],
    balanced_first_trimmed.2.2.2.1 "http://x" ["http://y/"] (by
      intro v h
      have h1 := HasSuffix_append v "/"
      rw [← h] at h1
      revert h1
      decide)⟩

/-- C9, the claim fails: the candidate `http://x//` is selected without error
and the URL returned for it, `http://x/`, still ends with "/". -/
theorem balanced_double_slash_counterexample :
    balanced ["http://x//"] = ("http://x/", none) ∧
    HasSuffix (balanced ["http://x//"]).1 "/" = true ∧
    ¬ (∀ urls : List String, (balanced urls).2 = none →
        HasSuffix (balanced urls).1 "/" = false) := by
  refine ⟨by decide, by decide, ?_⟩
  intro h
  exact absurd (h ["http://x//"] (by decide)) (by decide)

/-- C9 as amended: on a non-empty candidate list `balanced` succeeds and returns
the first element with exactly one trailing "/" removed when it has one
(`u ++ "/"` gives `u`) and unchanged when it has none. So the URL returned ends
with "/" exactly when the first element ends with "//": `http://x//` gives
`http://x/`, and the candidate "/" gives the empty URL. -/
theorem balanced_strips_one_slash (u : String) (rest : List String) :
    balanced ((u ++ "/") :: rest) = (u, none) ∧
    ((∀ v : String, u ≠ v ++ "/") → balanced (u :: rest) = (u, none)) ∧
    (balanced (u :: rest)).2 = none ∧
    HasSuffix (balanced (u :: rest)).1 "/" = HasSuffix u "//" ∧
    balanced ("http://x//" :: rest) = ("http://x/", none) ∧
    balanced ("/" :: rest) = ("", none) := by
  refine ⟨?_, ?_, rfl, ?_, ?_, ?_⟩
  · simp [balanced, TrimSuffix_append]
  · intro h
    simp [balanced, TrimSuffix_of_ne u "/" h]
  · exact HasSuffix_TrimSuffix_slash u
  · have h : TrimSuffix "http://x//" "/" = "http://x/" := by decide
    simp [balanced, h]
  · have h : TrimSuffix "/" "/" = "" := by decide
    simp [balanced, h]

/-- C9 as amended, at concrete inputs: one slash is removed from
`http://example.com/`, and `http://example.com` is returned as it is. -/
theorem balanced_strips_one_slash_witness :
    balanced (("http://example.com" ++ "/") :: ["http://y"]) = ("http://example.com", none) ∧
    balanced ["http://example.com", "http://y"] = ("http://example.com", none) :=
  ⟨(balanced_strips_one_slash "http://example.com" ["http://y"]).1,
    (balanced_strips_one_slash "http://example.com" ["http://y"]).2.1 (by
      intro v h
      have h1 := HasSuffix_append v "/"
      rw [← h] at h1
      revert h1
      decide)⟩

/-! ## The Locator provider -/

/-- C4: a Locator provider built with cache duration 0 has no cache; every
lookup reads the variable `SERVICELOCATOR_<name>`, returns its value split on
"," without error and leaves the provider as it was, so the next lookup is live
again. `a,b,c` gives the three pieces, an unset or empty variable gives the
one-element list holding the empty string, and the error "service not found in
Locator Discovery" is never returned. -/
theorem locator_without_cache_reads_environment (w : World) (serviceName : String) :
    (newLocatorDiscoveryProvider 0).discoveryServiceUrl w serviceName =
      (.returned (Split (w.Getenv ("SERVICELOCATOR_" ++ serviceName)) ",", none),
        newLocatorDiscoveryProvider 0, [Call.Getenv ("SERVICELOCATOR_" ++ serviceName)]) ∧
    (w.environ "SERVICELOCATOR_FOO" = some "a,b,c" →
      ((newLocatorDiscoveryProvider 0).discoveryServiceUrl w "FOO").1 =
        .returned (["a", "b", "c"], none)) ∧
    ((w.environ ("SERVICELOCATOR_" ++ serviceName) = none ∨
        w.environ ("SERVICELOCATOR_" ++ serviceName) = some "") →
      ((newLocatorDiscoveryProvider 0).discoveryServiceUrl w serviceName).1 =
        .returned ([""], none)) ∧
    (∀ urls : List String,
      ((newLocatorDiscoveryProvider 0).discoveryServiceUrl w serviceName).1 ≠
        .returned (urls, some "service not found in Locator Discovery")) := by
  have key : ∀ name : String,
      (newLocatorDiscoveryProvider 0).discoveryServiceUrl w name =
        (.returned (Split (w.Getenv ("SERVICELOCATOR_" ++ name)) ",", none),
          newLocatorDiscoveryProvider 0, [Call.Getenv ("SERVICELOCATOR_" ++ name)]) := by
    intro name
    have hlen : (Split (w.Getenv ("SERVICELOCATOR_" ++ name)) ",").length ≠ 0 := by
      intro h
      exact Split_comma_ne_nil _ (List.length_eq_zero.mp h)
    simp [locatorDiscoveryProviderImpl.discoveryServiceUrl,
      locatorDiscoveryProviderImpl.getServiceLocator, locatorDiscoveryProviderImpl.getUrlCache,
      locatorDiscoveryProviderImpl.setUrlCache, newLocatorDiscoveryProvider, hlen]
  refine ⟨key serviceName, ?_, ?_, ?_⟩
  · intro h
    have hname : ("SERVICELOCATOR_" ++ "FOO" : String) = "SERVICELOCATOR_FOO" := by decide
    have hsplit : Split "a,b,c" "," = ["a", "b", "c"] := by decide
    rw [key "FOO", hname]
    simp [World.Getenv, h, hsplit]
  · intro h
    have hsplit : Split "" "," = [""] := by decide
    rw [key serviceName]
    rcases h with h | h <;> simp [World.Getenv, h, hsplit]
  · intro urls
    rw [key serviceName]
    simp

/-- C4 at a concrete environment: `SERVICELOCATOR_FOO=a,b,c`, and the unset
variable `SERVICELOCATOR_BAR`. -/
theorem locator_without_cache_reads_environment_witness :
    ((newLocatorDiscoveryProvider 0).discoveryServiceUrl locatorWorld "FOO").1 =
      .returned (["a", "b", "c"], none) ∧
    ((newLocatorDiscoveryProvider 0).discoveryServiceUrl locatorWorld "BAR").1 =
      .returned ([""], none) :=
  ⟨(locator_without_cache_reads_environment locatorWorld "FOO").2.1 (by decide),
    (locator_without_cache_reads_environment locatorWorld "BAR").2.2.1 (Or.inl (by decide))⟩

/-- C5, what the code does: with a positive cache duration the first lookup of
a name finds no entry, the unchecked type assertion of `getUrlCache` panics,
and neither the environment is read nor anything cached. -/
theorem locator_cache_miss_panics (urlCacheTime : Int) (h : 0 < urlCacheTime) (w : World)
    (serviceName : String) :
    (newLocatorDiscoveryProvider urlCacheTime).discoveryServiceUrl w serviceName =
      (.panicked "interface conversion: interface \x7b\x7d is nil, not []string",
        newLocatorDiscoveryProvider urlCacheTime, []) := by
  simp [locatorDiscoveryProviderImpl.discoveryServiceUrl,
    locatorDiscoveryProviderImpl.getServiceLocator, locatorDiscoveryProviderImpl.getUrlCache,
    newLocatorDiscoveryProvider, h, Cache.New, Cache.Get]

/-- C5 at a concrete input: cache duration of one second, variable
`SERVICELOCATOR_FOO=a,b,c`, empty cache. -/
theorem locator_cache_miss_panics_witness :
    (newLocatorDiscoveryProvider 1000000000).discoveryServiceUrl locatorWorld "FOO" =
      (.panicked "interface conversion: interface \x7b\x7d is nil, not []string",
        newLocatorDiscoveryProvider 1000000000, []) :=
  locator_cache_miss_panics 1000000000 (by decide) locatorWorld "FOO"

/-! ## The service built by `NewDiscoveryService` -/

/-- C3, what the code does: outside a cluster and with `SERVICELOCATOR_FOO`
unset, the service built with all cache durations 0 answers the empty URL with
a nil error, in either iteration order of its two providers. -/
theorem FindUrl_returns_empty_url :
    ((NewDiscoveryService
        { LocatorProviderUrlCacheTime := 0, KubernetesProviderUrlCacheTime := 0,
          KubernetesProviderNamespaceCacheTime := 0,
          KubernetesProviderLabelName := "" }).FindUrl bareWorld "FOO").1 =
      .returned ("", none) ∧
    (DiscoveryServiceImpl.FindUrl
        { providers := (NewDiscoveryService
            { LocatorProviderUrlCacheTime := 0, KubernetesProviderUrlCacheTime := 0,
              KubernetesProviderNamespaceCacheTime := 0,
              KubernetesProviderLabelName := "" }).providers.reverse } bareWorld "FOO").1 =
      .returned ("", none) := by
  constructor <;> decide

/-! ## The Kubernetes provider: failing inputs -/

/-- C8, what the code does: when no listed pod qualifies (empty pod list, or
only a Pending pod) the lookup returns the empty URL list with a nil error; it
stops after the pod list and caches no URL. -/
theorem kubernetes_no_ready_pod_returns_nil_error :
    (newKubernetesDiscoveryProvider 0 0 "").discoveryServiceUrl
        (clusterWorld 1000 [] [webService]) "foo" =
      (.returned ([], none), newKubernetesDiscoveryProvider 0 0 "",
        [Call.ReadFile namespaceFilePath, Call.InClusterConfig, Call.NewForConfig,
          Call.ListPods "default" "app=foo"]) ∧
    (newKubernetesDiscoveryProvider 0 0 "").discoveryServiceUrl
        (clusterWorld 1000 [pendingPod] [webService]) "foo" =
      (.returned ([], none), newKubernetesDiscoveryProvider 0 0 "",
        [Call.ReadFile namespaceFilePath, Call.InClusterConfig, Call.NewForConfig,
          Call.ListPods "default" "app=foo"]) := by
  constructor <;> decide

/-- C10, what the code does: with a ready pod and a first service that declares
no port, indexing `Ports[0]` panics. -/
theorem kubernetes_portless_service_panics :
    ((newKubernetesDiscoveryProvider 0 0 "").discoveryServiceUrl
        (clusterWorld 1000 [readyPod] [portlessService, webService]) "foo").1 =
      .panicked "runtime error: index out of range [0] with length 0" := by
  decide

/-! ## The fan-out of `FindUrl` -/

theorem findLoop_returned (w : World) (serviceName : String) :
    ∀ (ps : List (String × discoveryProvider)) (urls : List String),
      (∀ p ∈ ps, ∃ v, p.2.answer w serviceName = .returned v) →
      (findLoop w serviceName ps urls).1 =
        .returned (urls ++ (ps.map (fun p => succeededUrls (p.2.answer w serviceName))).flatten) := by
  intro ps
  induction ps with
  | nil => intro urls _; simp [findLoop]
  | cons q ps ih =>
    intro urls h
    obtain ⟨name, p⟩ := q
    obtain ⟨⟨fundedUrls, err⟩, hv⟩ := h (name, p) (List.mem_cons_self _ _)
    have hv2 : p.answer w serviceName = .returned (fundedUrls, err) := hv
    have hrest := ih (if err ≠ none then urls else urls ++ fundedUrls)
      (fun p hp => h p (List.mem_cons_of_mem _ hp))
    simp only [findLoop, hv2, List.map_cons, List.flatten_cons]
    rw [hrest]
    cases err <;> simp [succeededUrls]

theorem FindUrl_returned (ds : DiscoveryServiceImpl) (w : World) (serviceName : String)
    (h : ∀ p ∈ ds.providers, ∃ v, p.2.answer w serviceName = .returned v) :
    (ds.FindUrl w serviceName).1 = .returned (balanced (candidates ds w serviceName)) := by
  have hloop := findLoop_returned w serviceName ds.providers [] h
  unfold DiscoveryServiceImpl.FindUrl candidates
  rcases hfl : findLoop w serviceName ds.providers [] with ⟨r, ps, t⟩
  rw [hfl] at hloop
  simp only at hloop
  subst hloop
  simp

/-- Aggregation over providers that return: `FindUrl` returns `balanced` of the
concatenation, in iteration order, of the URL lists of the providers that
returned no error; the error of a failing provider is dropped. With a failing
provider and one answering `http://x/` the result is `http://x` without error,
in either order; when every provider fails or answers an empty list the result
is the error "not found in Discovery". -/
theorem FindUrl_of_returning_providers (w : World) (serviceName : String) :
    (∀ ds : DiscoveryServiceImpl,
      (∀ p ∈ ds.providers, ∃ v, p.2.answer w serviceName = .returned v) →
      (ds.FindUrl w serviceName).1 = .returned (balanced (candidates ds w serviceName))) ∧
    (∀ (nameA nameB : String) (A B : discoveryProvider) (urlsA : List String) (errA : GoError),
      A.answer w serviceName = .returned (urlsA, some errA) →
      B.answer w serviceName = .returned (["http://x/"], none) →
      (DiscoveryServiceImpl.FindUrl { providers := [(nameA, A), (nameB, B)] } w serviceName).1 =
          .returned ("http://x", none) ∧
      (DiscoveryServiceImpl.FindUrl { providers := [(nameB, B), (nameA, A)] } w serviceName).1 =
          .returned ("http://x", none)) ∧
    (∀ ds : DiscoveryServiceImpl,
      (∀ p ∈ ds.providers, ∃ urls err, p.2.answer w serviceName = .returned (urls, err) ∧
        (err ≠ none ∨ urls = [])) →
      (ds.FindUrl w serviceName).1 = .returned ("", some "not found in Discovery")) := by
  refine ⟨fun ds h => FindUrl_returned ds w serviceName h, ?_, ?_⟩
  · intro nameA nameB A B urlsA errA hA hB
    have hx : balanced ["http://x/"] = ("http://x", none) := by decide
    constructor
    · rw [FindUrl_returned]
      · simp [candidates, hA, hB, succeededUrls, hx]
      · intro p hp
        simp only [List.mem_cons, List.mem_singleton, List.not_mem_nil, or_false] at hp
        rcases hp with rfl | rfl
        · exact ⟨_, hA⟩
        · exact ⟨_, hB⟩
    · rw [FindUrl_returned]
      · simp [candidates, hA, hB, succeededUrls, hx]
      · intro p hp
        simp only [List.mem_cons, List.mem_singleton, List.not_mem_nil, or_false] at hp
        rcases hp with rfl | rfl
        · exact ⟨_, hB⟩
        · exact ⟨_, hA⟩
  · intro ds h
    rw [FindUrl_returned ds w serviceName
      (fun p hp => by obtain ⟨urls, err, he, _⟩ := h p hp; exact ⟨_, he⟩)]
    have hnil : candidates ds w serviceName = [] := by
      unfold candidates
      rw [List.flatten_eq_nil_iff]
      intro l hl
      obtain ⟨p, hp, rfl⟩ := List.mem_map.mp hl
      obtain ⟨urls, err, he, hor⟩ := h p hp
      rw [he]
      cases err with
      | none =>
        rcases hor with hor | hor
        · exact absurd rfl hor
        · simp [succeededUrls, hor]
      | some e => simp [succeededUrls]
    rw [hnil]
    rfl

/-- Aggregation at a concrete registry: provider A fails, provider B answers
`http://x/`. -/
theorem FindUrl_of_returning_providers_example :
    (DiscoveryServiceImpl.FindUrl
        { providers := [("A", failingProvider), ("B", fixedProvider)] } bareWorld "svc").1 =
      .returned ("http://x", none) ∧
    (DiscoveryServiceImpl.FindUrl
        { providers := [("A", failingProvider)] } bareWorld "svc").1 =
      .returned ("", some "not found in Discovery") :=
  ⟨((FindUrl_of_returning_providers bareWorld "svc").2.1 "A" "B" failingProvider
      fixedProvider [] "provider A is down" rfl rfl).1,
    (FindUrl_of_returning_providers bareWorld "svc").2.2
      { providers := [("A", failingProvider)] } (by
        intro p hp
        simp only [List.mem_singleton] at hp
        subst hp
        exact ⟨[], some "provider A is down", rfl, Or.inl (by simp)⟩)⟩

theorem locator_answer_panicked (urlCacheTime : Int) (h : 0 < urlCacheTime) (w : World)
    (serviceName : String) :
    (newLocatorDiscoveryProvider urlCacheTime).toProvider.answer w serviceName =
      .panicked "interface conversion: interface \x7b\x7d is nil, not []string" := by
  simp [discoveryProvider.answer, locatorDiscoveryProviderImpl.toProvider,
    locatorDiscoveryProviderImpl.discoveryServiceUrl,
    locatorDiscoveryProviderImpl.getServiceLocator, locatorDiscoveryProviderImpl.getUrlCache,
    newLocatorDiscoveryProvider, h, Cache.New, Cache.Get]

/-- C2, what the code does: for the registry built by `NewDiscoveryService` with
a positive Locator cache duration, `FindUrl` never returns. Whatever the
collaborators answer and whatever name is asked, the first lookup panics, in
either iteration order of the two providers: once the Kubernetes provider has
returned (a value or an error), or when the Locator provider is visited first,
`FindUrl` ends with the panic of the Locator provider on its empty cache. -/
theorem FindUrl_panics_with_locator_cache (config : DiscoveryServiceConfig)
    (h : 0 < config.LocatorProviderUrlCacheTime) (w : World) (serviceName : String) :
    (∃ msg : String,
      ((NewDiscoveryService config).FindUrl w serviceName).1 = .panicked msg) ∧
    ((∃ v, (newKubernetesDiscoveryProvider config.KubernetesProviderUrlCacheTime
          config.KubernetesProviderNamespaceCacheTime
          config.KubernetesProviderLabelName).toProvider.answer w serviceName = .returned v) →
      ((NewDiscoveryService config).FindUrl w serviceName).1 =
        .panicked "interface conversion: interface \x7b\x7d is nil, not []string") ∧
    (DiscoveryServiceImpl.FindUrl
        { providers := (NewDiscoveryService config).providers.reverse } w serviceName).1 =
      .panicked "interface conversion: interface \x7b\x7d is nil, not []string" := by
  have hloc := locator_answer_panicked config.LocatorProviderUrlCacheTime h w serviceName
  have hret : ∀ v, (newKubernetesDiscoveryProvider config.KubernetesProviderUrlCacheTime
        config.KubernetesProviderNamespaceCacheTime
        config.KubernetesProviderLabelName).toProvider.answer w serviceName = .returned v →
      ((NewDiscoveryService config).FindUrl w serviceName).1 =
        .panicked "interface conversion: interface \x7b\x7d is nil, not []string" := by
    intro v hk
    obtain ⟨urls, err⟩ := v
    simp [DiscoveryServiceImpl.FindUrl, NewDiscoveryService, findLoop, hk, hloc]
  refine ⟨?_, ?_, ?_⟩
  · cases hk : (newKubernetesDiscoveryProvider config.KubernetesProviderUrlCacheTime
        config.KubernetesProviderNamespaceCacheTime
        config.KubernetesProviderLabelName).toProvider.answer w serviceName with
    | panicked msg =>
      exact ⟨msg, by simp [DiscoveryServiceImpl.FindUrl, NewDiscoveryService, findLoop, hk]⟩
    | returned v => exact ⟨_, hret v hk⟩
  · rintro ⟨v, hk⟩
    exact hret v hk
  · simp [DiscoveryServiceImpl.FindUrl, NewDiscoveryService, findLoop, hloc]

/-- C2 at a concrete input: Locator cache duration of one second, all other
settings zero, outside a cluster, `SERVICELOCATOR_FOO=a,b,c`, lookup of `FOO`. -/
theorem FindUrl_panics_with_locator_cache_witness :
    ((NewDiscoveryService
        { LocatorProviderUrlCacheTime := 1000000000, KubernetesProviderUrlCacheTime := 0,
          KubernetesProviderNamespaceCacheTime := 0,
          KubernetesProviderLabelName := "" }).FindUrl locatorWorld "FOO").1 =
      .panicked "interface conversion: interface \x7b\x7d is nil, not []string" :=
  (FindUrl_panics_with_locator_cache
      { LocatorProviderUrlCacheTime := 1000000000, KubernetesProviderUrlCacheTime := 0,
        KubernetesProviderNamespaceCacheTime := 0, KubernetesProviderLabelName := "" }
      (by decide) locatorWorld "FOO").2.1
    ⟨([], some "open namespace: no such file or directory"), by decide⟩

/-! ## The Kubernetes provider: namespace failure -/

/-- C7: when the url cache gives nothing for the name, the namespace cache gives
nothing, and reading the namespace file fails, the lookup returns that error
with an empty URL list; the only collaborator call is the file read (no client
is built, no pod or service is listed), and the provider, with both its caches,
is left as it was. -/
theorem kubernetes_namespace_failure_short_circuits (d : kubernetesDiscoveryProviderImpl)
    (w : World) (serviceName : String) (err : GoError)
    (hurl : d.getUrlCache w.now serviceName = "")
    (hns : d.getNamespaceCache w.now = "")
    (hread : w.readFile namespaceFilePath = .error err) :
    d.discoveryServiceUrl w serviceName =
      (.returned ([], some err), d, [Call.ReadFile namespaceFilePath]) := by
  simp [kubernetesDiscoveryProviderImpl.discoveryServiceUrl, hurl, hns, hread]

/-- C7 at a concrete input: fresh provider with both caches enabled, unreadable
namespace file. -/
theorem kubernetes_namespace_failure_short_circuits_witness :
    (newKubernetesDiscoveryProvider 60 60 "").discoveryServiceUrl bareWorld "foo" =
      (.returned ([], some "open namespace: no such file or directory"),
        newKubernetesDiscoveryProvider 60 60 "", [Call.ReadFile namespaceFilePath]) :=
  kubernetes_namespace_failure_short_circuits (newKubernetesDiscoveryProvider 60 60 "")
    bareWorld "foo" "open namespace: no such file or directory" (by decide) (by decide) rfl


/-! ## The Kubernetes provider: url cache -/

theorem getServiceUrlCacheKey_injective (cachePrefix a b : String)
    (h : getServiceUrlCacheKey cachePrefix a = getServiceUrlCacheKey cachePrefix b) : a = b := by
  unfold getServiceUrlCacheKey at h
  have hd := congrArg String.data h
  rw [String.data_append, String.data_append] at hd
  exact String.ext (List.append_cancel_left hd)

theorem lookup_filter_ne {α : Type} (k k2 : String) (h : k2 ≠ k) :
    ∀ items : List (String × Item α),
      (items.filter (fun p => p.1 != k)).lookup k2 = items.lookup k2 := by
  intro items
  induction items with
  | nil => rfl
  | cons q rest ih =>
    obtain ⟨kq, item⟩ := q
    by_cases hq : kq = k
    · subst hq
      have hne : (k2 == kq) = false := by simpa using h
      simp [List.filter_cons, List.lookup_cons, hne, ih]
    · have hne : (kq != k) = true := by simpa using hq
      simp only [List.filter_cons, hne, if_true, List.lookup_cons, ih]

theorem Cache.Get_Set_same {α : Type} (c : Cache α) (now now2 : Int) (k : String) (x : α)
    (httl : 0 < c.defaultExpiration) (hnow : now2 ≤ now + c.defaultExpiration) :
    (c.Set now k x 0).Get now2 k = (some x, true) := by
  have h1 : ¬ (now + c.defaultExpiration > 0 ∧ now2 > now + c.defaultExpiration) := by
    rintro ⟨_, h⟩
    omega
  simp [Cache.Get, Cache.Set, List.lookup_cons, httl, h1]

theorem Cache.Get_Set_other {α : Type} (c : Cache α) (now now2 : Int) (k k2 : String) (x : α)
    (d : Int) (h : k2 ≠ k) : (c.Set now k x d).Get now2 k2 = c.Get now2 k2 := by
  have hne : (k2 == k) = false := by simpa using h
  simp only [Cache.Get, Cache.Set, List.lookup_cons, hne, lookup_filter_ne k k2 h]

theorem setNamespaceCache_urlCache (d : kubernetesDiscoveryProviderImpl) (now : Int)
    (ns : String) : (d.setNamespaceCache now ns).urlCache = d.urlCache := by
  unfold kubernetesDiscoveryProviderImpl.setNamespaceCache
  cases d.namespaceCache <;> rfl

theorem serviceUrl_ne_empty (a b c : String) : a ++ "://" ++ b ++ ":" ++ c ≠ "" := by
  intro h
  have hd := congrArg String.data h
  have h1 : ("://" : String).data = [Char.ofNat 58, Char.ofNat 47, Char.ofNat 47] := by decide
  have h2 : ("" : String).data = [] := rfl
  simp [String.data_append, h1, h2] at hd

theorem namespaceStep_urlCache (d : kubernetesDiscoveryProviderImpl) (w : World) :
    ∀ (ns : String) (d1 : kubernetesDiscoveryProviderImpl) (t1 : List Call),
      (if d.getNamespaceCache w.now ≠ "" then
          ((Except.ok (d.getNamespaceCache w.now, d) :
            Except GoError (String × kubernetesDiscoveryProviderImpl)), ([] : List Call))
        else
          match w.readFile namespaceFilePath with
          | .error err => (.error err, [Call.ReadFile namespaceFilePath])
          | .ok currentNamespace =>
            (.ok (currentNamespace, d.setNamespaceCache w.now currentNamespace),
              [Call.ReadFile namespaceFilePath])) = (Except.ok (ns, d1), t1) →
      d1.urlCache = d.urlCache := by
  intro ns d1 t1 h
  split at h
  · simp only [Prod.mk.injEq, Except.ok.injEq] at h
    rw [← h.1.2]
  · split at h
    · simp at h
    · simp only [Prod.mk.injEq, Except.ok.injEq] at h
      rw [← h.1.2]
      exact setNamespaceCache_urlCache _ _ _

theorem newKubernetesDiscoveryProvider_urlCache (ttl nsTtl : Int) (labelName : String)
    (h : 0 < ttl) :
    (newKubernetesDiscoveryProvider ttl nsTtl labelName).urlCache.map Cache.defaultExpiration =
      some ttl := by
  have h0 : ttl ≠ 0 := by omega
  simp [newKubernetesDiscoveryProvider, h, Cache.New, h0]

theorem setUrlCache_ttl (d : kubernetesDiscoveryProviderImpl) (now : Int) (a b : String) :
    (d.setUrlCache now a b).urlCache.map Cache.defaultExpiration =
      d.urlCache.map Cache.defaultExpiration := by
  unfold kubernetesDiscoveryProviderImpl.setUrlCache
  cases h : d.urlCache <;> simp [h, Cache.Set]

theorem discoveryServiceUrl_urlCache_ttl (d : kubernetesDiscoveryProviderImpl) (w : World)
    (serviceName : String) :
    (d.discoveryServiceUrl w serviceName).2.1.urlCache.map Cache.defaultExpiration =
      d.urlCache.map Cache.defaultExpiration := by
  simp only [kubernetesDiscoveryProviderImpl.discoveryServiceUrl]
  repeat' split
  all_goals first
    | rfl
    | (rw [setUrlCache_ttl, namespaceStep_urlCache d w _ _ _ (by assumption)])
    | (rw [namespaceStep_urlCache d w _ _ _ (by assumption)])

theorem lookup_independent_of_urlCache_entries
    (nsCache : Option (Cache String)) (ua ub : Option (Cache String)) (labelName : String)
    (w : World) (serviceName : String)
    (hu : kubernetesDiscoveryProviderImpl.getUrlCache
        { namespaceCache := nsCache, urlCache := ua, labelName := labelName } w.now serviceName =
      kubernetesDiscoveryProviderImpl.getUrlCache
        { namespaceCache := nsCache, urlCache := ub, labelName := labelName } w.now serviceName) :
    (kubernetesDiscoveryProviderImpl.discoveryServiceUrl
        { namespaceCache := nsCache, urlCache := ua, labelName := labelName } w serviceName).1 =
      (kubernetesDiscoveryProviderImpl.discoveryServiceUrl
        { namespaceCache := nsCache, urlCache := ub, labelName := labelName } w serviceName).1 ∧
    (kubernetesDiscoveryProviderImpl.discoveryServiceUrl
        { namespaceCache := nsCache, urlCache := ua, labelName := labelName } w serviceName).2.2 =
      (kubernetesDiscoveryProviderImpl.discoveryServiceUrl
        { namespaceCache := nsCache, urlCache := ub, labelName := labelName } w serviceName).2.2 := by
  have hns : kubernetesDiscoveryProviderImpl.getNamespaceCache
        { namespaceCache := nsCache, urlCache := ua, labelName := labelName } w.now =
      kubernetesDiscoveryProviderImpl.getNamespaceCache
        { namespaceCache := nsCache, urlCache := ub, labelName := labelName } w.now := rfl
  have hlab : ∀ (u : Option (Cache String)) (ns : String),
      (kubernetesDiscoveryProviderImpl.setNamespaceCache
        { namespaceCache := nsCache, urlCache := u, labelName := labelName } w.now ns).labelName =
        labelName := by
    intro u ns
    unfold kubernetesDiscoveryProviderImpl.setNamespaceCache
    cases nsCache <;> rfl
  simp only [kubernetesDiscoveryProviderImpl.discoveryServiceUrl, hu, hns]
  by_cases h1 : kubernetesDiscoveryProviderImpl.getUrlCache
        { namespaceCache := nsCache, urlCache := ub, labelName := labelName } w.now serviceName = ""
  · simp only [h1, ne_eq, not_true_eq_false, if_false]
    by_cases h2 : kubernetesDiscoveryProviderImpl.getNamespaceCache
        { namespaceCache := nsCache, urlCache := ub, labelName := labelName } w.now = ""
    · simp only [h2, ne_eq, not_true_eq_false, if_false]
      cases hr : w.readFile namespaceFilePath with
      | error e => simp
      | ok ns =>
        simp only [hlab]
        repeat' split
        all_goals simp
    · simp only [ne_eq, h2, not_false_eq_true, if_true]
      repeat' split
      all_goals simp
  · simp [h1]

theorem lookup_miss_makes_call (d : kubernetesDiscoveryProviderImpl) (w : World)
    (serviceName : String) (h : d.getUrlCache w.now serviceName = "") :
    (d.discoveryServiceUrl w serviceName).2.2 ≠ [] := by
  simp only [kubernetesDiscoveryProviderImpl.discoveryServiceUrl, h]
  by_cases h2 : d.getNamespaceCache w.now = ""
  · simp only [h2, ne_eq, not_true_eq_false, if_false]
    cases hr : w.readFile namespaceFilePath with
    | error e => simp
    | ok ns =>
      simp only
      repeat' split
      all_goals simp
  · simp only [ne_eq, h2, not_false_eq_true, if_true, not_true_eq_false, if_false]
    repeat' split
    all_goals simp

theorem kubernetes_live_success (d d2 : kubernetesDiscoveryProviderImpl) (w : World)
    (serviceName u : String) (t : List Call)
    (hmiss : d.getUrlCache w.now serviceName = "")
    (hres : d.discoveryServiceUrl w serviceName = (.returned ([u], none), d2, t)) :
    ∃ d1 : kubernetesDiscoveryProviderImpl, d1.urlCache = d.urlCache ∧
      d2 = d1.setUrlCache w.now serviceName u ∧ u ≠ "" := by
  simp only [kubernetesDiscoveryProviderImpl.discoveryServiceUrl, hmiss] at hres
  repeat' split at hres
  all_goals simp at hres
  · rename_i hne
    exact absurd rfl hne
  · obtain ⟨hu, hd2, _⟩ := hres
    refine ⟨_, namespaceStep_urlCache d w _ _ _ (by assumption), ?_, ?_⟩
    · rw [← hd2, hu]
    · rw [← hu]
      exact serviceUrl_ne_empty _ _ _

/-- C6: take a Kubernetes provider whose url cache was created with a positive
duration `ttl`, and a lookup of a name that missed the url cache and returned
the URL `u` without error (a successful live resolution) at instant `w.now`.
Then every later lookup of the same name up to the expiry instant
`w.now + ttl`, in any state of the collaborators, returns exactly `[u]` without
error, makes no collaborator call (no file read, no cluster API call) and
leaves the provider as it is. A lookup of any other name is not served from the
stored entry: the url cache answers for it as it did before, the lookup ends
with the same result and makes the same collaborator calls as in the provider
without the stored entry, and when the other name had no entry of its own the
lookup goes live (it makes at least one collaborator call). -/
theorem kubernetes_cached_url_is_served (d d2 : kubernetesDiscoveryProviderImpl) (ttl : Int)
    (w : World) (serviceName u : String) (t : List Call)
    (hcache : d.urlCache.map Cache.defaultExpiration = some ttl) (httl : 0 < ttl)
    (hmiss : d.getUrlCache w.now serviceName = "")
    (hres : d.discoveryServiceUrl w serviceName = (.returned ([u], none), d2, t)) :
    (∀ w2 : World, w2.now ≤ w.now + ttl →
      d2.discoveryServiceUrl w2 serviceName = (.returned ([u], none), d2, [])) ∧
    (∀ (w2 : World) (other : String), other ≠ serviceName →
      d2.getUrlCache w2.now other = d.getUrlCache w2.now other ∧
      (d2.discoveryServiceUrl w2 other).1 =
        (kubernetesDiscoveryProviderImpl.discoveryServiceUrl
          { d2 with urlCache := d.urlCache } w2 other).1 ∧
      (d2.discoveryServiceUrl w2 other).2.2 =
        (kubernetesDiscoveryProviderImpl.discoveryServiceUrl
          { d2 with urlCache := d.urlCache } w2 other).2.2 ∧
      (d.getUrlCache w2.now other = "" → (d2.discoveryServiceUrl w2 other).2.2 ≠ [])) := by
  obtain ⟨d1, hd1, hd2, hu⟩ := kubernetes_live_success d d2 w serviceName u t hmiss hres
  cases hc : d.urlCache with
  | none => simp [hc] at hcache
  | some c =>
    have hde : c.defaultExpiration = ttl := by simpa [hc] using hcache
    have hd2c : d2.urlCache =
        some (c.Set w.now (getServiceUrlCacheKey serviceUrlCachePrefix serviceName) u 0) := by
      rw [hd2]
      unfold kubernetesDiscoveryProviderImpl.setUrlCache
      rw [hd1, hc]
    constructor
    · intro w2 hw2
      have hget : d2.getUrlCache w2.now serviceName = u := by
        unfold kubernetesDiscoveryProviderImpl.getUrlCache
        rw [hd2c]
        simp only
        rw [Cache.Get_Set_same c w.now w2.now _ u (by omega) (by omega)]
      simp [kubernetesDiscoveryProviderImpl.discoveryServiceUrl, hget, hu]
    · intro w2 other hother
      have hk : getServiceUrlCacheKey serviceUrlCachePrefix other ≠
          getServiceUrlCacheKey serviceUrlCachePrefix serviceName :=
        fun h => hother (getServiceUrlCacheKey_injective _ _ _ h)
      have hsame : d2.getUrlCache w2.now other = d.getUrlCache w2.now other := by
        unfold kubernetesDiscoveryProviderImpl.getUrlCache
        rw [hd2c, hc]
        simp only
        rw [Cache.Get_Set_other c w.now w2.now _ _ u 0 hk]
      have hsame2 : kubernetesDiscoveryProviderImpl.getUrlCache
            { namespaceCache := d2.namespaceCache, urlCache := d2.urlCache,
              labelName := d2.labelName } w2.now other =
          kubernetesDiscoveryProviderImpl.getUrlCache
            { namespaceCache := d2.namespaceCache, urlCache := some c,
              labelName := d2.labelName } w2.now other := by
        rw [hsame]
        unfold kubernetesDiscoveryProviderImpl.getUrlCache
        rw [hc]
      have hcongr := lookup_independent_of_urlCache_entries d2.namespaceCache d2.urlCache
        (some c) d2.labelName w2 other hsame2
      refine ⟨hsame, hcongr.1, hcongr.2, ?_⟩
      intro hmiss2
      exact lookup_miss_makes_call d2 w2 other (hsame.trans hmiss2)

/-- C6 at a concrete input: `foo` resolved live at instant 1000 with a cache
duration of 60, looked up again at instant 1060 when the cluster lists nothing;
the lookup of `bar` is not served from the entry and goes live. -/
theorem kubernetes_cached_url_is_served_witness :
    providerAfterFoo.discoveryServiceUrl (clusterWorld 1060 [] []) "foo" =
      (.returned (["http://10.0.0.1:8080"], none), providerAfterFoo, []) ∧
    (providerAfterFoo.discoveryServiceUrl (clusterWorld 1060 [] []) "bar").2.2 ≠ [] :=
  ⟨(kubernetes_cached_url_is_served (newKubernetesDiscoveryProvider 60 0 "") providerAfterFoo 60
      (clusterWorld 1000 [readyPod] [webService]) "foo" "http://10.0.0.1:8080"
      [Call.ReadFile namespaceFilePath, Call.InClusterConfig, Call.NewForConfig,
        Call.ListPods "default" "app=foo", Call.ListServices "default" "app=foo"]
      (by decide) (by decide) (by decide) (by decide)).1 (clusterWorld 1060 [] []) (by decide),
    ((kubernetes_cached_url_is_served (newKubernetesDiscoveryProvider 60 0 "") providerAfterFoo 60
      (clusterWorld 1000 [readyPod] [webService]) "foo" "http://10.0.0.1:8080"
      [Call.ReadFile namespaceFilePath, Call.InClusterConfig, Call.NewForConfig,
        Call.ListPods "default" "app=foo", Call.ListServices "default" "app=foo"]
      (by decide) (by decide) (by decide) (by decide)).2 (clusterWorld 1060 [] []) "bar"
      (by decide)).2.2.2 (by decide)⟩

end Discovery
